import Mathlib

/-!
Shallow embedding of the Gemini personal-assistant orchestration core
(src/gemini_assistant/assistant.py together with the tool registry in
src/gemini_assistant/tools.py): the Python value universe the dispatcher
and handlers manipulate, the conversation data model, the tool dispatcher,
the five tool handlers, and the generate-until-complete orchestration
loop.  External collaborators (the language-model backend, the weather
provider, the encyclopedia provider, the third-party date parser) are
modelled as explicit oracle parameters or restricted faithful models,
each documented at its definition.  The theorems at the end check the
design specification's claims against this embedding.
-/

namespace GeminiAssistant

/-- Python runtime values, restricted to the shapes this program exchanges
through argument and result mappings (None, str, int, list, dict). -/
inductive Value where
  | vnone
  | str (s : String)
  | num (n : Int)
  | list (xs : List Value)
  | dict (kvs : List (String × Value))

/-- Python exceptions that can escape a handler or the dispatcher in
assistant.py: TypeError (dict() on a non-mapping, date parse of a
non-string), AttributeError (str methods on non-strings) and ValueError
(the chat precondition, dict() on a malformed pair sequence). -/
inductive PyError where
  | typeError (msg : String)
  | attributeError (msg : String)
  | valueError (msg : String)
deriving DecidableEq

/-- Python truthiness for the value shapes used here. -/
def pyTruthy : Value → Bool
  | .vnone => false
  | .str s => s != ""
  | .num n => n != 0
  | .list xs => !xs.isEmpty
  | .dict kvs => !kvs.isEmpty

/-- Models dict.get(k, d).  The first binding wins; Python dict keys are
unique, so the association lists built here never shadow a key. -/
def pyGetD (kvs : List (String × Value)) (k : String) (d : Value) : Value :=
  match kvs.lookup k with
  | some v => v
  | none => d

/-- Models data.get(k, d) on a parsed-JSON payload value: dict lookup
with a default.  The search handler only applies it inside its contained
try block, and a payload on which Python .get would raise is covered by
the fetch oracle's error case instead. -/
def valueGetD (v : Value) (k : String) (d : Value) : Value :=
  match v with
  | .dict kvs => pyGetD kvs k d
  | _ => d

/-- Left strip of the characters in cs; models one side of
str.strip(chars). -/
def stripCharsLeft (cs : List Char) : List Char → List Char
  | [] => []
  | c :: rest => if c ∈ cs then stripCharsLeft cs rest else c :: rest

/-- Models s.strip(chars): removes any run of the given characters from
both ends. -/
def pyStripChars (cs : List Char) (s : String) : String :=
  String.mk (stripCharsLeft cs (stripCharsLeft cs s.data.reverse).reverse)

/-- ASCII whitespace, the character class str.strip() removes on the
inputs this program sees. -/
def wsChars : List Char := [' ', '\t', '\n', '\r', '\x0b', '\x0c']

/-- Models s.strip() with no arguments. -/
def pyTrim (s : String) : String := pyStripChars wsChars s

/-- Models s.lower(), restricted to ASCII case mapping. -/
def pyLowerAscii (s : String) : String := String.mk (s.data.map Char.toLower)

/-- Models s.replace(" ", "%20"), the URL escaping both outbound
handlers perform. -/
def pyReplaceSpace (s : String) : String :=
  String.mk ((s.data.map (fun c => if c = ' ' then ['%', '2', '0'] else [c])).flatten)

/-- Models v.strip() on a retrieved argument value: strings are trimmed,
anything else raises AttributeError exactly as in Python. -/
def pyStripStr : Value → Except PyError String
  | .str s => .ok (pyTrim s)
  | _ => .error (.attributeError "object has no attribute strip")

/-- Models v.lower() on a retrieved argument value: non-strings raise
AttributeError exactly as in Python. -/
def pyLower : Value → Except PyError String
  | .str s => .ok (pyLowerAscii s)
  | _ => .error (.attributeError "object has no attribute lower")

/-- Models str(v), as used by the f-string in the unknown-tool error
message of _dispatch_tool_call. -/
def pyStrOf : Value → String
  | .vnone => "None"
  | .str s => s
  | .num n => toString n
  | .list _ => "[...]"
  | .dict _ => "\x7b...\x7d"

/-- Decimal digit character for k in 0..9 (inputs above 9 are clamped;
all uses are guarded by a bound). -/
def digitChar : Nat → Char
  | 0 => '0'
  | 1 => '1'
  | 2 => '2'
  | 3 => '3'
  | 4 => '4'
  | 5 => '5'
  | 6 => '6'
  | 7 => '7'
  | 8 => '8'
  | _ => '9'

/-- Numeric value of a decimal digit character, none otherwise. -/
def digit? (c : Char) : Option Nat :=
  if c.isDigit then some (c.toNat - 48) else none

/-- Two-digit decimal read. -/
def parse2 (a b : Char) : Option Nat := do
  pure (10 * (← digit? a) + (← digit? b))

/-- Four-digit decimal read. -/
def parse4 (a b c d : Char) : Option Nat := do
  pure (1000 * (← digit? a) + 100 * (← digit? b) + 10 * (← digit? c) + (← digit? d))

/-- Calendar timestamp with second precision: the granularity stored by
this program (Python datetime values with microsecond 0 and no tzinfo). -/
structure DateTime where
  year : Nat
  month : Nat
  day : Nat
  hour : Nat
  minute : Nat
  second : Nat
deriving DecidableEq

/-- Two-digit zero-padded decimal rendering. -/
def pad2 (n : Nat) : List Char := [digitChar (n / 10), digitChar (n % 10)]

/-- Four-digit zero-padded decimal rendering. -/
def pad4 (n : Nat) : List Char :=
  [digitChar (n / 1000), digitChar (n / 100 % 10), digitChar (n / 10 % 10), digitChar (n % 10)]

/-- Models datetime.isoformat() for a zero-microsecond, timezone-free
value: YYYY-MM-DDTHH:MM:SS. -/
def isoformat (d : DateTime) : String :=
  String.mk (pad4 d.year ++ '-' :: pad2 d.month ++ '-' :: pad2 d.day ++
    'T' :: pad2 d.hour ++ ':' :: pad2 d.minute ++ ':' :: pad2 d.second)

/-- Models date.isoformat(): the date part only, YYYY-MM-DD. -/
def dateIso (d : DateTime) : String :=
  String.mk (pad4 d.year ++ '-' :: pad2 d.month ++ '-' :: pad2 d.day)

/-- Field ranges accepted by Python datetime construction (day bound is
coarse: real datetime also checks month lengths, which no claim here
exercises). -/
def rangesOk (y mo d h mi s : Nat) : Bool :=
  1 ≤ y && y ≤ 9999 && 1 ≤ mo && mo ≤ 12 && 1 ≤ d && d ≤ 31 &&
    h ≤ 23 && mi ≤ 59 && s ≤ 59

/-- Modelled from the spec: dateutil.parser.parse is a third-party
dependency, so this models its acceptance of the exact canonical ISO
datetime form YYYY-MM-DDTHH:MM:SS with the field ranges Python datetime
enforces. -/
def parseIsoDateTime (s : String) : Option DateTime :=
  match s.data with
  | [y1, y2, y3, y4, '-', a1, a2, '-', b1, b2, 'T', c1, c2, ':', e1, e2, ':', f1, f2] => do
    let y ← parse4 y1 y2 y3 y4
    let mo ← parse2 a1 a2
    let dd ← parse2 b1 b2
    let hh ← parse2 c1 c2
    let mi ← parse2 e1 e2
    let ss ← parse2 f1 f2
    if rangesOk y mo dd hh mi ss then some ⟨y, mo, dd, hh, mi, ss⟩ else none
  | _ => none

/-- Modelled from the spec: dateutil also accepts a bare ISO date
YYYY-MM-DD, defaulting the time of day to midnight. -/
def parseIsoDate (s : String) : Option DateTime :=
  match s.data with
  | [y1, y2, y3, y4, '-', a1, a2, '-', b1, b2] => do
    let y ← parse4 y1 y2 y3 y4
    let mo ← parse2 a1 a2
    let dd ← parse2 b1 b2
    if rangesOk y mo dd 0 0 0 then some ⟨y, mo, dd, 0, 0, 0⟩ else none
  | _ => none

/-- Character-list splitter (the empty list yields one empty token, as
Python str.split with an explicit separator does). -/
def splitOnChar (sep : Char) : List Char → List (List Char)
  | [] => [[]]
  | c :: rest =>
    if c = sep then [] :: splitOnChar sep rest
    else
      match splitOnChar sep rest with
      | t :: ts => (c :: t) :: ts
      | [] => [[c]]

/-- English month names (capitalized or lower-case) to month numbers;
a restriction of dateutil's case-insensitive month vocabulary. -/
def monthFromName (s : String) : Option Nat :=
  match s with
  | "January" | "january" => some 1
  | "February" | "february" => some 2
  | "March" | "march" => some 3
  | "April" | "april" => some 4
  | "May" | "may" => some 5
  | "June" | "june" => some 6
  | "July" | "july" => some 7
  | "August" | "august" => some 8
  | "September" | "september" => some 9
  | "October" | "october" => some 10
  | "November" | "november" => some 11
  | "December" | "december" => some 12
  | _ => none

/-- Digits-only decimal read of a whole token. -/
def parseNatDigits (s : String) : Option Nat :=
  if s.data ≠ [] ∧ s.data.all Char.isDigit then
    some (s.data.foldl (fun acc c => 10 * acc + (c.toNat - 48)) 0)
  else none

/-- Hour token of the form Ham or Hpm (e.g. 9am, 12pm), as dateutil reads
it: 12am is hour 0, 12pm is hour 12. -/
def parseHourToken (s : String) : Option Nat :=
  match s.data.reverse with
  | 'm' :: 'a' :: rest => do
    let h ← parseNatDigits (String.mk rest.reverse)
    if 1 ≤ h ∧ h ≤ 12 then some (if h = 12 then 0 else h) else none
  | 'm' :: 'p' :: rest => do
    let h ← parseNatDigits (String.mk rest.reverse)
    if 1 ≤ h ∧ h ≤ 12 then some (if h = 12 then h else h + 12) else none
  | _ => none

/-- Modelled from the spec: dateutil also accepts loose English forms;
this models the four-token MonthName Day Year Hour(am/pm) shape used by
the claims (e.g. March 1 2024 9am). -/
def parseMonthDayYearTime (s : String) : Option DateTime :=
  match splitOnChar ' ' s.data with
  | [mon, d, y, t] => do
    let mo ← monthFromName (String.mk mon)
    let dd ← parseNatDigits (String.mk d)
    let yy ← parseNatDigits (String.mk y)
    let hh ← parseHourToken (String.mk t)
    if rangesOk yy mo dd hh 0 0 then some ⟨yy, mo, dd, hh, 0, 0⟩ else none
  | _ => none

/-- Modelled from the spec: dateutil.parser.parse on a string, restricted
to the formats the claims exercise; every other string raises
ParserError (a ValueError subclass) with the message shown, which the
handlers catch. -/
def dateParse (s : String) : Except String DateTime :=
  match parseIsoDateTime s with
  | some d => .ok d
  | none =>
    match parseIsoDate s with
    | some d => .ok d
    | none =>
      match parseMonthDayYearTime s with
      | some d => .ok d
      | none => .error ("Unknown string format: " ++ s)

/-- Models date_parser.parse applied to a raw argument value inside a
try/except (ValueError, TypeError) block: non-strings raise TypeError,
unparsable strings raise ParserError, and both are caught and carried
here as the exception message the handler interpolates. -/
def pyDateParseValue : Value → Except String DateTime
  | .str s => dateParse s
  | _ => .error "Parser must be a string or character stream"

/-- One stored reminder, exactly the dict _tool_create_reminder builds:
a summary and an ISO-serialized due time. -/
structure Reminder where
  summary : String
  due_time : String
deriving DecidableEq

/-- Session-scoped mutable store of AssistantState (assistant.py lines
18-49): the reminders list and the pre-seeded calendar lookup table. -/
structure AssistantState where
  reminders : List Reminder
  calendar_seed : List (String × Value)

/-- Calendar seed built by AssistantState.__post_init__; the two dates
come from datetime.utcnow(), an ambient input modelled as parameters. -/
def seedCalendar (today tomorrow : String) : List (String × Value) :=
  [(today, .list [
      .dict [("title", .str "Stand-up with product team"), ("time", .str "09:30"),
             ("location", .str "Zoom"),
             ("notes", .str "Share progress on the onboarding flow prototype.")],
      .dict [("title", .str "Gym session"), ("time", .str "17:45"),
             ("location", .str "Local fitness center"),
             ("notes", .str "Strength day - focus on posterior chain.")]]),
   (tomorrow, .list [
      .dict [("title", .str "Client status update"), ("time", .str "13:00"),
             ("location", .str "Teams"),
             ("notes", .str "Review Q4 roadmap and confirm deliverables.")]])]

/-- Fresh AssistantState as __post_init__ leaves it, for a given pair of
seed dates. -/
def mkAssistantState (today tomorrow : String) : AssistantState :=
  ⟨[], seedCalendar today tomorrow⟩

/-- Tool results are free-form string-keyed mappings; by convention an
error key signals a handled failure. -/
abbrev ToolResult := List (String × Value)

/-- Weather provider payload after the JSON field extraction of
_tool_get_weather_forecast (lines 199-206); the fetch oracle's error case
covers network failures and any malformed payload, both of which the
handler's blanket except converts to the same contained error. -/
structure WeatherPayload where
  summary : String
  temp_C : ℚ
  temp_F : ℚ
  humidity : String
  feelsLikeC : ℚ
  feelsLikeF : ℚ
  areaName : String

/-- External data providers reached from the handlers, as oracles: the
weather lookup keyed by the escaped location query and the encyclopedia
summary lookup keyed by the topic query, each returning a payload or the
text of the exception the blanket except in the handler would catch. -/
structure Providers where
  weather : String → Except String WeatherPayload
  wiki : String → Except String Value

/-- Python round-half-even of a rational, the rounding used by the
format spec .0f, computed on the numerator and denominator (f is the
floor, rnum/den the fractional remainder compared against one half). -/
def roundHalfEven (q : ℚ) : ℤ :=
  let f := q.num.fdiv q.den
  let rnum := q.num - f * q.den
  if 2 * rnum < (q.den : ℤ) then f
  else if (q.den : ℤ) < 2 * rnum then f + 1
  else if f % 2 = 0 then f else f + 1

/-- Models the Python format expression with spec .0f: zero decimal
places, round-half-even, and a negative-zero sign for negative inputs
that round to zero. -/
def pyFmt0 (q : ℚ) : String :=
  let n := roundHalfEven q
  if n = 0 ∧ q.num < 0 then "-0" else toString n

/-- Handler _tool_get_weather_forecast (lines 185-224).  Unit resolution
and the location check run before the try block, so a non-string
location or unit raises; everything inside the try is contained. -/
def toolGetWeatherForecast (fetch : String → Except String WeatherPayload)
    (arguments : List (String × Value)) : Except PyError ToolResult :=
  match pyStripStr (pyGetD arguments "location" (.str "")) with
  | .error e => .error e
  | .ok location =>
    let unitRaw := pyGetD arguments "unit" .vnone
    match pyLower (if pyTruthy unitRaw then unitRaw else .str "fahrenheit") with
    | .error e => .error e
    | .ok unit0 =>
      let resolvedUnit := if unit0 = "fahrenheit" ∨ unit0 = "celsius" then unit0 else "fahrenheit"
      if location = "" then
        .ok [("error", .str "Missing location.")]
      else
        match fetch (pyReplaceSpace location) with
        | .error exc =>
          .ok [("location", .str location),
               ("error", .str ("Weather provider unavailable: " ++ exc))]
        | .ok p =>
          let temp := if resolvedUnit = "fahrenheit" then p.temp_F else p.temp_C
          let feelsLike := if resolvedUnit = "fahrenheit" then p.feelsLikeF else p.feelsLikeC
          let unitSymbol := if resolvedUnit = "fahrenheit" then "°F" else "°C"
          .ok [("location", .str p.areaName),
               ("summary", .str p.summary),
               ("temperature", .str (pyFmt0 temp ++ unitSymbol)),
               ("feels_like", .str (pyFmt0 feelsLike ++ unitSymbol)),
               ("humidity", .str (p.humidity ++ "%")),
               ("source", .str "wttr.in")]

/-- Handler _tool_list_calendar_agenda (lines 226-237): read-only lookup
in the calendar seed; unparsable dates are contained as an error result. -/
def toolListCalendarAgenda (arguments : List (String × Value)) (st : AssistantState) :
    Except PyError (ToolResult × AssistantState) :=
  let dateVal := pyGetD arguments "date" .vnone
  if pyTruthy dateVal = false then
    .ok ([("error", .str "Provide a date in YYYY-MM-DD format.")], st)
  else
    match pyDateParseValue dateVal with
    | .error exc => .ok ([("error", .str ("Invalid date: " ++ exc))], st)
    | .ok parsed =>
      let agenda := pyGetD st.calendar_seed (dateIso parsed) (.list [])
      .ok ([("date", .str (dateIso parsed)), ("events", agenda)], st)

/-- Dict form of a stored reminder, as echoed in the create_reminder
result. -/
def reminderValue (r : Reminder) : Value :=
  .dict [("summary", .str r.summary), ("due_time", .str r.due_time)]

/-- Handler _tool_create_reminder (lines 239-257): validates, parses the
due time, appends to the reminders list and reports the new count. -/
def toolCreateReminder (arguments : List (String × Value)) (st : AssistantState) :
    Except PyError (ToolResult × AssistantState) :=
  match pyStripStr (pyGetD arguments "summary" (.str "")) with
  | .error e => .error e
  | .ok summary =>
    let dueTimeRaw := pyGetD arguments "due_time" .vnone
    if summary = "" then
      .ok ([("error", .str "Reminder summary cannot be empty.")], st)
    else if pyTruthy dueTimeRaw = false then
      .ok ([("error", .str "Provide a due_time in ISO-8601 format.")], st)
    else
      match pyDateParseValue dueTimeRaw with
      | .error exc => .ok ([("error", .str ("Invalid due_time: " ++ exc))], st)
      | .ok dueTime =>
        let reminder : Reminder := ⟨summary, isoformat dueTime⟩
        let reminders := st.reminders ++ [reminder]
        .ok ([("status", .str "stored"),
              ("reminder", reminderValue reminder),
              ("total", .num reminders.length)],
             { st with reminders := reminders })

/-- Handler _tool_search_public_info (lines 259-280): the whole lookup is
inside the try, so provider failures are contained; the topic strip runs
before it and can raise on a non-string. -/
def toolSearchPublicInfo (fetch : String → Except String Value)
    (arguments : List (String × Value)) : Except PyError ToolResult :=
  match pyStripStr (pyGetD arguments "topic" (.str "")) with
  | .error e => .error e
  | .ok topic =>
    if topic = "" then
      .ok [("error", .str "Topic cannot be empty.")]
    else
      match fetch (pyReplaceSpace topic) with
      | .error exc =>
        .ok [("topic", .str topic),
             ("error", .str ("Wikipedia lookup failed: " ++ exc))]
      | .ok data =>
        let extract := valueGetD data "extract" .vnone
        let summary := if pyTruthy extract then extract else valueGetD data "description" .vnone
        .ok [("title", valueGetD data "title" (.str topic)),
             ("summary", summary),
             ("url", valueGetD (valueGetD (valueGetD data "content_urls" (.dict []))
                       "desktop" (.dict [])) "page" .vnone),
             ("source", .str "wikipedia")]

/-- Models "\n".join. -/
def joinLines : List String → String
  | [] => ""
  | [x] => x
  | x :: xs => x ++ "\n" ++ joinLines xs

/-- Outline splitting of _tool_draft_email_outline line 286: split the
stripped outline into lines, keep the non-blank ones, strip bullet
markers and surrounding spaces from each. -/
def bulletsOf (outlineRaw : String) : List String :=
  ((splitOnChar '\n' outlineRaw.data).filter
      (fun l => pyTrim (String.mk l) != "")).map
      (fun l => pyStripChars ['-', '•', ' '] (String.mk l))

/-- Body assembly of _tool_draft_email_outline lines 288-297. -/
def emailBody (recipient subject : String) (bullets : List String) : String :=
  joinLines
    (["Hi " ++ recipient ++ ",",
      "I hope you're doing well. I'm reaching out about " ++ pyLowerAscii subject ++ "."] ++
     (if bullets.isEmpty then [] else
       "Here are the key points:" :: bullets.map (fun b => "- " ++ b)) ++
     ["Let me know if you have any questions or need more detail.",
      "Best,\nYour Assistant"])

/-- Handler _tool_draft_email_outline (lines 282-302): pure text
assembly with default substitution for blank recipient and subject. -/
def toolDraftEmailOutline (arguments : List (String × Value)) :
    Except PyError ToolResult :=
  match pyStripStr (pyGetD arguments "recipient" (.str "there")) with
  | .error e => .error e
  | .ok recipient0 =>
    let recipient := if recipient0 = "" then "there" else recipient0
    match pyStripStr (pyGetD arguments "subject" (.str "Quick update")) with
    | .error e => .error e
    | .ok subject0 =>
      let subject := if subject0 = "" then "Quick update" else subject0
      match pyStripStr (pyGetD arguments "outline" (.str "")) with
      | .error e => .error e
      | .ok outlineRaw =>
        .ok [("subject", .str subject),
             ("body", .str (emailBody recipient subject (bulletsOf outlineRaw)))]

/-- Tool invocation request as extracted from a model message part
(tools.py declares the schema; the proto-backed dict always carries a
name and an args payload, a missing args key being the empty dict). -/
structure FunctionCall where
  name : Value
  args : Value

/-- One transcript part: the tagged union over text, inline attachment,
tool call and tool result that the message dicts in assistant.py carry. -/
inductive Part where
  | text (s : String)
  | inlineData (mimeType : String) (data : String)
  | functionCall (fc : FunctionCall)
  | functionResponse (name : Value) (response : ToolResult)

/-- One transcript entry: role and ordered parts. -/
structure Message where
  role : String
  parts : List Part

/-- The registered tool name set, TOOL_NAMES in tools.py (lines 116-122). -/
def TOOL_NAMES : List String :=
  ["get_weather_forecast", "list_calendar_agenda", "create_reminder",
   "search_public_info", "draft_email_outline"]

/-- Python membership of an arbitrary value in a set of strings. -/
def valueInNames (v : Value) (names : List String) : Bool :=
  match v with
  | .str s => names.contains s
  | _ => false

/-- Models dict(arguments) on a non-mapping payload (line 181): mappings
pass through, a sequence of two-element key/value pairs converts, the
empty string converts to the empty dict, and everything else raises the
TypeError or ValueError Python dict() raises. -/
def coercePairs : List Value → Except PyError (List (String × Value))
  | [] => .ok []
  | x :: rest =>
    match x with
    | .list [.str k, v] =>
      match coercePairs rest with
      | .ok kvs => .ok ((k, v) :: kvs)
      | .error e => .error e
    | _ => .error (.typeError "cannot convert dictionary update sequence")

/-- Normalization of the args payload into the handler argument mapping:
isinstance dict check, then dict() conversion for anything else. -/
def coerceDict : Value → Except PyError (List (String × Value))
  | .dict kvs => .ok kvs
  | .list xs => coercePairs xs
  | .str s =>
    if s = "" then .ok []
    else .error (.valueError "dictionary update sequence element #0 has length 1; 2 is required")
  | .vnone => .error (.typeError "'NoneType' object is not iterable")
  | .num _ => .error (.typeError "'int' object is not iterable")

/-- _dispatch_tool_call (assistant.py lines 164-183): registry check,
argument normalization, then the name-keyed handler table.  The final
catch-all arm is unreachable because the registry check only admits the
five string names. -/
def dispatchToolCall (pv : Providers) (fc : FunctionCall) (st : AssistantState) :
    Except PyError (ToolResult × AssistantState) :=
  if valueInNames fc.name TOOL_NAMES = false then
    .ok ([("error", .str ("Tool '" ++ pyStrOf fc.name ++ "' is not available."))], st)
  else
    match coerceDict fc.args with
    | .error e => .error e
    | .ok arguments =>
      match fc.name with
      | .str n =>
        if n = "get_weather_forecast" then
          match toolGetWeatherForecast pv.weather arguments with
          | .error e => .error e
          | .ok r => .ok (r, st)
        else if n = "list_calendar_agenda" then toolListCalendarAgenda arguments st
        else if n = "create_reminder" then toolCreateReminder arguments st
        else if n = "search_public_info" then
          match toolSearchPublicInfo pv.wiki arguments with
          | .error e => .error e
          | .ok r => .ok (r, st)
        else
          match toolDraftEmailOutline arguments with
          | .error e => .error e
          | .ok r => .ok (r, st)
      | _ => .ok ([], st)

/-- _extract_function_calls (lines 325-331): the toolCall parts of a
message, in emission order. -/
def extractFunctionCalls (m : Message) : List FunctionCall :=
  m.parts.filterMap fun p =>
    match p with
    | .functionCall fc => some fc
    | _ => none

/-- The tool-result message appended for one dispatched call (loop body,
lines 149-162). -/
def toolResultMessage (fc : FunctionCall) (response : ToolResult) : Message :=
  { role := "tool", parts := [.functionResponse fc.name response] }

/-- The per-round for loop over requested calls: dispatch each in
backend order, collecting one tool message per call and threading the
assistant state; a raising dispatch propagates. -/
def dispatchSequence (pv : Providers) (calls : List FunctionCall) (st : AssistantState) :
    Except PyError (List Message × AssistantState) :=
  match calls with
  | [] => .ok ([], st)
  | fc :: rest =>
    match dispatchToolCall pv fc st with
    | .error e => .error e
    | .ok (response, st₁) =>
      match dispatchSequence pv rest st₁ with
      | .error e => .error e
      | .ok (msgs, st₂) => .ok (toolResultMessage fc response :: msgs, st₂)

/-- _generate_until_complete (lines 133-162).  The backend oracle gives
the model response of each round (the code passes the whole history to
the remote model; indexing responses by round number captures every
deterministic run).  The while True loop has no bound in the source;
fuel is a modelling artifact, and the ok none outcome means the given
number of rounds elapsed without the loop returning. -/
def generateUntilComplete (pv : Providers) (backend : Nat → Message) :
    Nat → Nat → List Message → AssistantState →
    Except PyError (Option (Message × List Message × AssistantState))
  | _, 0, _, _ => .ok none
  | round, fuel + 1, history, st =>
    let modelMessage := backend round
    let history₁ := history ++ [modelMessage]
    let calls := extractFunctionCalls modelMessage
    if calls.isEmpty then
      .ok (some (modelMessage, history₁, st))
    else
      match dispatchSequence pv calls st with
      | .error e => .error e
      | .ok (toolMsgs, st₁) =>
        generateUntilComplete pv backend (round + 1) fuel (history₁ ++ toolMsgs) st₁

/-- Base64 alphabet. -/
def b64chars : List Char :=
  "ABCDEFGHIJKLMNOPQRSTUVWXYZabcdefghijklmnopqrstuvwxyz0123456789+/".data

/-- Base64 encoding of a byte list, grouped in threes with = padding. -/
def b64encodeAux : List Nat → List Char
  | a :: b :: c :: rest =>
    let n := a % 256 * 65536 + b % 256 * 256 + c % 256
    b64chars.getD (n / 262144) 'A' :: b64chars.getD (n / 4096 % 64) 'A' ::
      b64chars.getD (n / 64 % 64) 'A' :: b64chars.getD (n % 64) 'A' :: b64encodeAux rest
  | [a, b] =>
    let n := a % 256 * 65536 + b % 256 * 256
    [b64chars.getD (n / 262144) 'A', b64chars.getD (n / 4096 % 64) 'A',
     b64chars.getD (n / 64 % 64) 'A', '=']
  | [a] =>
    let n := a % 256 * 65536
    [b64chars.getD (n / 262144) 'A', b64chars.getD (n / 4096 % 64) 'A', '=', '=']
  | [] => []

/-- Models base64.b64encode(...).decode("utf-8") on a byte payload. -/
def b64encode (bs : List Nat) : String := String.mk (b64encodeAux bs)

/-- _build_user_message (lines 305-323): a text part when the prompt is
truthy, an inline attachment part when image bytes are supplied. -/
def buildUserMessage (prompt : String) (imageBytes : Option (List Nat))
    (mimeType : String) : Message :=
  { role := "user",
    parts :=
      (if prompt ≠ "" then [.text prompt] else []) ++
      (match imageBytes with
       | some bs => [.inlineData mimeType (b64encode bs)]
       | none => []) }

/-- _parts_to_text (lines 333-335): join the nonempty stripped text
parts with newlines. -/
def partsToText (parts : List Part) : String :=
  joinLines ((((parts.filterMap fun p =>
      match p with
      | .text s => some s
      | _ => none).map pyTrim).filter (fun t => t != "")))

/-- The session object: the running conversation history and the
assistant state owned by one GeminiAssistant instance. -/
structure Session where
  history : List Message
  state : AssistantState

/-- reset (lines 83-86): clear the running conversation history. -/
def reset (s : Session) : Session :=
  { s with history := [] }

/-- chat (lines 88-97): precondition check, user message append, loop to
completion, then text extraction.  The ok none outcome again means the
loop consumed all modelled fuel without the backend finishing. -/
def chat (pv : Providers) (backend : Nat → Message) (fuel : Nat) (prompt : String)
    (imageBytes : Option (List Nat)) (mimeType : String) (s : Session) :
    Except PyError (Option (String × Session)) :=
  if prompt = "" ∧ imageBytes = none then
    .error (.valueError "Provide text, an image, or both.")
  else
    match generateUntilComplete pv backend 0 fuel
        (s.history ++ [buildUserMessage prompt imageBytes mimeType]) s.state with
    | .error e => .error e
    | .ok none => .ok none
    | .ok (some (finalMessage, history, st)) =>
      .ok (some (partsToText finalMessage.parts, ⟨history, st⟩))

/-- Test fixture: a concrete assistant state, seeded at fixed dates. -/
def st0 : AssistantState := mkAssistantState "2024-03-01" "2024-03-02"

/-- Test fixture: providers whose outbound calls always fail, standing
in for an unreachable network. -/
def noProviders : Providers :=
  ⟨fun _ => .error "network down", fun _ => .error "network down"⟩

/-- Test fixture: a model message requesting one unregistered tool. -/
def bogusCallMsg : Message :=
  ⟨"model", [Part.functionCall ⟨Value.str "bogus_tool", Value.dict []⟩]⟩

/-- Test fixture: a final model message carrying plain text. -/
def doneMsg : Message := ⟨"model", [Part.text "hi"]⟩

/-- Stub backend that requests a tool call on every round. -/
def stubAlways : Nat → Message := fun _ => bogusCallMsg

/-- Stub backend that requests one tool call and then answers. -/
def stubOnce : Nat → Message := fun n =>
  match n with
  | 0 => bogusCallMsg
  | _ + 1 => doneMsg

/-- C9: reset clears the conversation transcript to the empty sequence
and leaves the AssistantState (reminders and calendar index) unchanged. -/
theorem reset_clears_history_only (s : Session) :
    (reset s).history = [] ∧ (reset s).state = s.state :=
  ⟨rfl, rfl⟩

/-- C1 counterexample: dispatching a registered tool with a non-mapping
argument payload raises a TypeError instead of returning an error-keyed
ToolResult, so dispatch does let exceptions propagate to the loop. -/
theorem dispatch_raises_on_non_mapping_args :
    dispatchToolCall noProviders ⟨.str "create_reminder", .num 5⟩ st0 =
      .error (.typeError "'int' object is not iterable") := rfl

/-- C1 (amended): a request whose name is not one of the five registered
tool names always yields the exact unavailable-tool error result, with
no exception, for every provider set and state; but a non-coercible
argument payload propagates as an exception from under the dispatcher. -/
theorem dispatch_unknown_tool_error (pv : Providers) (fc : FunctionCall)
    (st : AssistantState) (h : valueInNames fc.name TOOL_NAMES = false) :
    (dispatchToolCall pv fc st =
      .ok ([("error", .str ("Tool '" ++ pyStrOf fc.name ++ "' is not available."))], st)) ∧
    (∀ st', dispatchToolCall pv ⟨.str "create_reminder", .num 5⟩ st' =
      .error (.typeError "'int' object is not iterable")) := by
  constructor
  · unfold dispatchToolCall
    simp [h]
  · intro st'
    rfl

/-- Witness for the C1 theorem at the concrete unregistered name of
concrete scenario D. -/
theorem dispatch_unknown_tool_error_witness :
    (dispatchToolCall noProviders ⟨.str "unknown_tool", .dict []⟩ st0 =
      .ok ([("error", .str ("Tool '" ++ pyStrOf (Value.str "unknown_tool") ++ "' is not available."))], st0)) ∧
    (∀ st', dispatchToolCall noProviders ⟨.str "create_reminder", .num 5⟩ st' =
      .error (.typeError "'int' object is not iterable")) :=
  dispatch_unknown_tool_error noProviders ⟨.str "unknown_tool", .dict []⟩ st0 (by decide)

/-- C6: list_calendar_agenda never raises, is read-only (the state it
returns is the state it was given), repeating it reproduces the same
result, and a present-but-unparsable date yields exactly the
Invalid date error result, which has no events key. -/
theorem agenda_idempotent_readonly (arguments : List (String × Value)) (st : AssistantState) :
    (∃ r, toolListCalendarAgenda arguments st = .ok (r, st)) ∧
    (∀ r st', toolListCalendarAgenda arguments st = .ok (r, st') →
      st' = st ∧ toolListCalendarAgenda arguments st' = .ok (r, st')) ∧
    (∀ exc, pyTruthy (pyGetD arguments "date" .vnone) = true →
      pyDateParseValue (pyGetD arguments "date" .vnone) = .error exc →
      toolListCalendarAgenda arguments st =
        .ok ([("error", .str ("Invalid date: " ++ exc))], st) ∧
      List.lookup "events" [("error", Value.str ("Invalid date: " ++ exc))] = none) := by
  have base : ∃ r, toolListCalendarAgenda arguments st = .ok (r, st) := by
    unfold toolListCalendarAgenda
    rcases htr : pyTruthy (pyGetD arguments "date" Value.vnone)
    · exact ⟨[("error", Value.str "Provide a date in YYYY-MM-DD format.")], by simp [htr]⟩
    · rcases hp : pyDateParseValue (pyGetD arguments "date" Value.vnone) with exc | parsed
      · exact ⟨[("error", Value.str ("Invalid date: " ++ exc))], by simp [htr, hp]⟩
      · exact ⟨[("date", Value.str (dateIso parsed)),
          ("events", pyGetD st.calendar_seed (dateIso parsed) (Value.list []))], by simp [htr, hp]⟩
  refine ⟨base, ?_, ?_⟩
  · intro r st' h
    obtain ⟨r₀, h₀⟩ := base
    rw [h₀] at h
    injection h with h
    injection h with h1 h2
    subst h2
    constructor
    · rfl
    · rw [h₀, h1]
  · intro exc htr herr
    constructor
    · unfold toolListCalendarAgenda
      simp [htr, herr]
    · rfl

/-- Witness for the C6 theorem at concrete scenario B. -/
theorem agenda_idempotent_readonly_witness :
    toolListCalendarAgenda [("date", Value.str "not-a-date")] st0 =
      .ok ([("error", .str ("Invalid date: " ++ "Unknown string format: not-a-date"))], st0) ∧
    List.lookup "events"
      [("error", Value.str ("Invalid date: " ++ "Unknown string format: not-a-date"))] = none :=
  (agenda_idempotent_readonly [("date", Value.str "not-a-date")] st0).2.2
    "Unknown string format: not-a-date" rfl rfl

/-- C8: draft_email_outline never returns an error result; a blank
recipient is default-substituted with there, a blank subject with
Quick update; the bullets come from the split, trimmed, marker-stripped
outline lines; and concrete scenario C produces the expected body. -/
theorem email_outline_total (arguments : List (String × Value)) :
    (∀ r, toolDraftEmailOutline arguments = .ok r →
      ∃ su bo, r = [("subject", Value.str su), ("body", Value.str bo)] ∧
        List.lookup "error" r = none) ∧
    (∀ s, pyGetD arguments "recipient" (.str "there") = .str s → pyTrim s = "" →
      ∀ r, toolDraftEmailOutline arguments = .ok r →
      ∃ su bl, r = [("subject", Value.str su),
        ("body", Value.str (emailBody "there" su bl))]) ∧
    (∀ s, pyGetD arguments "subject" (.str "Quick update") = .str s → pyTrim s = "" →
      ∀ r, toolDraftEmailOutline arguments = .ok r →
      ∃ re bl, r = [("subject", Value.str "Quick update"),
        ("body", Value.str (emailBody re "Quick update" bl))]) ∧
    (∀ o, pyGetD arguments "outline" (.str "") = .str o →
      ∀ r, toolDraftEmailOutline arguments = .ok r →
      ∃ re su, r = [("subject", Value.str su),
        ("body", Value.str (emailBody re su (bulletsOf (pyTrim o))))]) ∧
    (toolDraftEmailOutline
        [("recipient", Value.str "Sam"), ("subject", Value.str "Launch plan"),
         ("outline", Value.str "- ship v1\n- notify users")] =
      .ok [("subject", Value.str "Launch plan"),
           ("body", Value.str ("Hi Sam,\nI hope you're doing well. I'm reaching out about launch plan.\nHere are the key points:\n- ship v1\n- notify users\nLet me know if you have any questions or need more detail.\nBest,\nYour Assistant"))]) := by
  refine ⟨?_, ?_, ?_, ?_, by rfl⟩
  · intro r h
    unfold toolDraftEmailOutline at h
    rcases h1 : pyStripStr (pyGetD arguments "recipient" (Value.str "there")) with e | rec0 <;>
      rw [h1] at h
    · simp at h
    rcases h2 : pyStripStr (pyGetD arguments "subject" (Value.str "Quick update")) with e | sub0 <;>
      rw [h2] at h
    · simp at h
    rcases h3 : pyStripStr (pyGetD arguments "outline" (Value.str "")) with e | out0 <;>
      rw [h3] at h
    · simp at h
    simp only [Except.ok.injEq] at h
    subst h
    exact ⟨_, _, rfl, rfl⟩
  · intro s hs hblank r h
    have h1 : pyStripStr (pyGetD arguments "recipient" (Value.str "there")) = .ok "" := by
      rw [hs]
      simp [pyStripStr, hblank]
    unfold toolDraftEmailOutline at h
    rw [h1] at h
    rcases h2 : pyStripStr (pyGetD arguments "subject" (Value.str "Quick update")) with e | sub0 <;>
      rw [h2] at h
    · simp at h
    rcases h3 : pyStripStr (pyGetD arguments "outline" (Value.str "")) with e | out0 <;>
      rw [h3] at h
    · simp at h
    simp only [Except.ok.injEq] at h
    subst h
    exact ⟨(if sub0 = "" then "Quick update" else sub0), bulletsOf out0, by simp⟩
  · intro s hs hblank r h
    have h2 : pyStripStr (pyGetD arguments "subject" (Value.str "Quick update")) = .ok "" := by
      rw [hs]
      simp [pyStripStr, hblank]
    unfold toolDraftEmailOutline at h
    rcases h1 : pyStripStr (pyGetD arguments "recipient" (Value.str "there")) with e | rec0 <;>
      rw [h1] at h
    · simp at h
    rw [h2] at h
    rcases h3 : pyStripStr (pyGetD arguments "outline" (Value.str "")) with e | out0 <;>
      rw [h3] at h
    · simp at h
    simp only [Except.ok.injEq] at h
    subst h
    exact ⟨(if rec0 = "" then "there" else rec0), bulletsOf out0, by simp⟩
  · intro o ho r h
    have h3 : pyStripStr (pyGetD arguments "outline" (Value.str "")) = .ok (pyTrim o) := by
      rw [ho]
      simp [pyStripStr]
    unfold toolDraftEmailOutline at h
    rcases h1 : pyStripStr (pyGetD arguments "recipient" (Value.str "there")) with e | rec0 <;>
      rw [h1] at h
    · simp at h
    rcases h2 : pyStripStr (pyGetD arguments "subject" (Value.str "Quick update")) with e | sub0 <;>
      rw [h2] at h
    · simp at h
    rw [h3] at h
    simp only [Except.ok.injEq] at h
    subst h
    exact ⟨(if rec0 = "" then "there" else rec0),
      (if sub0 = "" then "Quick update" else sub0), rfl⟩

/-- Witness for the C8 theorem: a blank recipient at a concrete input is
greeted as there. -/
theorem email_outline_total_witness :
    ∃ su bl, [("subject", Value.str "Hello"),
        ("body", Value.str (emailBody "there" "Hello" []))] =
      [("subject", Value.str su), ("body", Value.str (emailBody "there" su bl))] :=
  (email_outline_total [("recipient", Value.str "  "), ("subject", Value.str "Hello"),
      ("outline", Value.str "")]).2.1 "  " rfl (by decide)
    [("subject", Value.str "Hello"), ("body", Value.str (emailBody "there" "Hello" []))] rfl

/-- Test fixture: the argument mapping of concrete scenario A. -/
def payRentArgs : List (String × Value) :=
  [("summary", Value.str "Pay rent"), ("due_time", Value.str "2024-03-01T09:00:00")]

/-- Driver for the monotonic-counting claim: run create_reminder
sequentially over summary/due-time string pairs, collecting results. -/
def createMany : List (String × String) → AssistantState →
    Except PyError (List ToolResult × AssistantState)
  | [], st => .ok ([], st)
  | (su, du) :: rest, st =>
    match toolCreateReminder [("summary", .str su), ("due_time", .str du)] st with
    | .error e => .error e
    | .ok (r, st₁) =>
      match createMany rest st₁ with
      | .error e => .error e
      | .ok (rs, st₂) => .ok (r :: rs, st₂)

/-- Validity of one create_reminder input pair: nonblank summary and a
truthy, parsable due time. -/
def validInput (p : String × String) : Bool :=
  pyTrim p.1 != "" && p.2 != "" &&
    (match dateParse p.2 with | .ok _ => true | .error _ => false)

/-- The reminder stored for a valid input pair. -/
def storedOf (p : String × String) : Reminder :=
  ⟨pyTrim p.1, match dateParse p.2 with | .ok d => isoformat d | .error _ => ""⟩

theorem create_ok (su du : String) (st : AssistantState) (d : DateTime)
    (hsu : pyTrim su ≠ "") (hdu : du ≠ "") (hd : dateParse du = .ok d) :
    toolCreateReminder [("summary", Value.str su), ("due_time", Value.str du)] st =
      .ok ([("status", .str "stored"),
            ("reminder", reminderValue ⟨pyTrim su, isoformat d⟩),
            ("total", .num (st.reminders.length + 1))],
           { st with reminders := st.reminders ++ [⟨pyTrim su, isoformat d⟩] }) := by
  have e1 : pyGetD [("summary", Value.str su), ("due_time", Value.str du)] "summary"
      (Value.str "") = Value.str su := rfl
  have e2 : pyGetD [("summary", Value.str su), ("due_time", Value.str du)] "due_time"
      Value.vnone = Value.str du := rfl
  unfold toolCreateReminder
  rw [e1, e2]
  simp [pyStripStr, pyTruthy, pyDateParseValue, hsu, hdu, hd]

theorem createMany_spec (inputs : List (String × String)) :
    ∀ st, (∀ p ∈ inputs, validInput p = true) →
    ∃ rs, createMany inputs st =
        .ok (rs, { st with reminders := st.reminders ++ inputs.map storedOf }) ∧
      rs.map (List.lookup "total") =
        (List.range' (st.reminders.length + 1) inputs.length).map
          (fun n => some (Value.num n)) := by
  induction inputs with
  | nil =>
    intro st _
    exact ⟨[], by simp [createMany], by simp [List.range']⟩
  | cons p rest ih =>
    intro st hv
    obtain ⟨su, du⟩ := p
    have hva := hv (su, du) (List.mem_cons_self _ _)
    simp only [validInput, Bool.and_eq_true, bne_iff_ne, ne_eq] at hva
    obtain ⟨⟨h1, h2⟩, h3⟩ := hva
    rcases hd : dateParse du with e | d
    · rw [hd] at h3; simp at h3
    have hcreate := create_ok su du st d h1 h2 hd
    obtain ⟨rs, hrun, htot⟩ := ih
      { st with reminders := st.reminders ++ [⟨pyTrim su, isoformat d⟩] }
      (fun q hq => hv q (List.mem_cons_of_mem _ hq))
    refine ⟨[("status", Value.str "stored"),
      ("reminder", reminderValue ⟨pyTrim su, isoformat d⟩),
      ("total", Value.num (st.reminders.length + 1))] :: rs, ?_, ?_⟩
    · unfold createMany
      rw [hcreate]
      dsimp only
      rw [hrun]
      simp [storedOf, hd]
    · simp only [List.map_cons, htot]
      simp [List.range', List.length_append]
      congr 1

/-- C5: starting from an empty reminders store, N sequential
create_reminder calls with distinct valid inputs return totals 1..N in
order and leave N stored reminders; every k-call prefix of the run
leaves exactly k reminders forming a prefix of the final list, so the
store only grows; and concrete scenario A returns the exact stored
result with total 1. -/
theorem reminder_monotonic_counting (inputs : List (String × String)) (st : AssistantState)
    (h0 : st.reminders = []) (hv : ∀ p ∈ inputs, validInput p = true)
    (hdist : inputs.Nodup) :
    ∃ rs stN, createMany inputs st = .ok (rs, stN) ∧
      rs.map (List.lookup "total") =
        (List.range' 1 inputs.length).map (fun n => some (Value.num n)) ∧
      stN.reminders.length = inputs.length ∧
      (∀ k, k ≤ inputs.length → ∃ rsk stk,
        createMany (inputs.take k) st = .ok (rsk, stk) ∧
        stk.reminders.length = k ∧ stk.reminders <+: stN.reminders) ∧
      (∀ seed, toolCreateReminder payRentArgs ⟨[], seed⟩ =
        .ok ([("status", .str "stored"),
              ("reminder", .dict [("summary", .str "Pay rent"),
                                  ("due_time", .str "2024-03-01T09:00:00")]),
              ("total", .num 1)], ⟨[⟨"Pay rent", "2024-03-01T09:00:00"⟩], seed⟩)) := by
  have h0' : st.reminders.length = 0 := by rw [h0]; rfl
  obtain ⟨rs, hrun, htot⟩ := createMany_spec inputs st hv
  rw [h0'] at htot
  refine ⟨rs, _, hrun, htot, ?_, ?_, ?_⟩
  · simp [h0]
  · intro k hk
    obtain ⟨rsk, hrunk, _⟩ := createMany_spec (inputs.take k) st
      (fun p hp => hv p (List.mem_of_mem_take hp))
    refine ⟨rsk, _, hrunk, ?_, ?_⟩
    · simp [h0, List.length_take, Nat.min_eq_left hk]
    · refine ⟨(inputs.map storedOf).drop k, ?_⟩
      simp [h0, List.map_take, List.take_append_drop]
  · intro seed
    rfl

/-- Witness for the C5 theorem on a concrete two-call run. -/
theorem reminder_monotonic_counting_witness :
    ∃ rs stN,
      createMany [("Pay rent", "2024-03-01T09:00:00"), ("Call Bob", "2024-03-02")] st0 =
        .ok (rs, stN) ∧
      rs.map (List.lookup "total") =
        (List.range' 1 ([("Pay rent", "2024-03-01T09:00:00"),
          ("Call Bob", "2024-03-02")] : List (String × String)).length).map
            (fun n => some (Value.num n)) ∧
      stN.reminders.length = ([("Pay rent", "2024-03-01T09:00:00"),
          ("Call Bob", "2024-03-02")] : List (String × String)).length ∧
      (∀ k, k ≤ ([("Pay rent", "2024-03-01T09:00:00"),
          ("Call Bob", "2024-03-02")] : List (String × String)).length → ∃ rsk stk,
        createMany (([("Pay rent", "2024-03-01T09:00:00"),
          ("Call Bob", "2024-03-02")] : List (String × String)).take k) st0 = .ok (rsk, stk) ∧
        stk.reminders.length = k ∧ stk.reminders <+: stN.reminders) ∧
      (∀ seed, toolCreateReminder payRentArgs ⟨[], seed⟩ =
        .ok ([("status", .str "stored"),
              ("reminder", .dict [("summary", .str "Pay rent"),
                                  ("due_time", .str "2024-03-01T09:00:00")]),
              ("total", .num 1)], ⟨[⟨"Pay rent", "2024-03-01T09:00:00"⟩], seed⟩)) :=
  reminder_monotonic_counting
    [("Pay rent", "2024-03-01T09:00:00"), ("Call Bob", "2024-03-02")] st0
    rfl (by decide) (by decide)

/-- Test fixture: a fixed weather payload with 20°C / 68°F readings. -/
def parisPayload : WeatherPayload := ⟨"Sunny", 20, 68, "40", 19, 66, "Paris"⟩

/-- Test fixture: a weather provider that always answers with the fixed
payload. -/
def parisWeather : String → Except String WeatherPayload := fun _ => .ok parisPayload

/-- C4 counterexample: the unit argument Celsius is not in the exact set
containing fahrenheit and celsius, yet the handler resolves it to
celsius (the success fields carry °C), not to fahrenheit as the claim
requires: the code lowercases the value before the membership test. -/
theorem weather_unit_not_coerced_for_capitalized :
    ("Celsius" ≠ "fahrenheit" ∧ "Celsius" ≠ "celsius") ∧
    toolGetWeatherForecast parisWeather
        [("location", Value.str "Paris"), ("unit", Value.str "Celsius")] =
      .ok [("location", Value.str "Paris"),
           ("summary", Value.str "Sunny"),
           ("temperature", Value.str "20°C"),
           ("feels_like", Value.str "19°C"),
           ("humidity", Value.str "40%"),
           ("source", Value.str "wttr.in")] :=
  ⟨⟨by decide, by decide⟩, rfl⟩

/-- C4 (amended): the unit defaults to fahrenheit when absent or falsy;
a string unit is lowercased and coerced to fahrenheit exactly when the
lowercased value is not in the set containing fahrenheit and celsius;
and on success the temperature and feels_like fields are the payload
value of the resolved unit rounded to zero decimal places followed by
the matching °F or °C symbol. -/
theorem weather_unit_resolution_format
    (fetch : String → Except String WeatherPayload)
    (arguments : List (String × Value)) (ls : String) (p : WeatherPayload)
    (hloc : pyGetD arguments "location" (.str "") = .str ls)
    (hne : pyTrim ls ≠ "")
    (hfetch : fetch (pyReplaceSpace (pyTrim ls)) = .ok p) :
    (pyGetD arguments "unit" .vnone = .vnone →
      toolGetWeatherForecast fetch arguments =
        .ok [("location", .str p.areaName),
             ("summary", .str p.summary),
             ("temperature", .str (pyFmt0 p.temp_F ++ "°F")),
             ("feels_like", .str (pyFmt0 p.feelsLikeF ++ "°F")),
             ("humidity", .str (p.humidity ++ "%")),
             ("source", .str "wttr.in")]) ∧
    (∀ u, pyGetD arguments "unit" .vnone = .str u →
      toolGetWeatherForecast fetch arguments =
        (let resolvedUnit :=
          if u = "" then "fahrenheit"
          else if pyLowerAscii u = "fahrenheit" ∨ pyLowerAscii u = "celsius" then
            pyLowerAscii u
          else "fahrenheit"
        .ok [("location", .str p.areaName),
             ("summary", .str p.summary),
             ("temperature", .str (pyFmt0
                (if resolvedUnit = "fahrenheit" then p.temp_F else p.temp_C) ++
                (if resolvedUnit = "fahrenheit" then "°F" else "°C"))),
             ("feels_like", .str (pyFmt0
                (if resolvedUnit = "fahrenheit" then p.feelsLikeF else p.feelsLikeC) ++
                (if resolvedUnit = "fahrenheit" then "°F" else "°C"))),
             ("humidity", .str (p.humidity ++ "%")),
             ("source", .str "wttr.in")])) := by
  have hlf : pyLowerAscii "fahrenheit" = "fahrenheit" := rfl
  constructor
  · intro hu
    unfold toolGetWeatherForecast
    rw [hloc, hu]
    simp [pyStripStr, pyTruthy, pyLower, hlf, hne, hfetch]
  · intro u hu
    unfold toolGetWeatherForecast
    rw [hloc, hu]
    by_cases hu0 : u = ""
    · subst hu0
      simp [pyStripStr, pyTruthy, pyLower, hlf, hne, hfetch]
    · simp [pyStripStr, pyTruthy, pyLower, hne, hfetch, hu0]

/-- Witness for the C4 theorem: a lower-case celsius unit at a concrete
input selects the Celsius readings and the °C symbol. -/
theorem weather_unit_resolution_format_witness :
    toolGetWeatherForecast parisWeather
        [("location", Value.str "Paris"), ("unit", Value.str "celsius")] =
      .ok [("location", Value.str "Paris"),
           ("summary", Value.str "Sunny"),
           ("temperature", Value.str "20°C"),
           ("feels_like", Value.str "19°C"),
           ("humidity", Value.str "40%"),
           ("source", Value.str "wttr.in")] := by
  have h := (weather_unit_resolution_format parisWeather
      [("location", Value.str "Paris"), ("unit", Value.str "celsius")]
      "Paris" parisPayload rfl (by decide) rfl).2 "celsius" rfl
  rw [h]
  rfl

theorem digitChar_eq_ofNat (k : Nat) (h : k ≤ 9) : digitChar k = Char.ofNat (48 + k) := by
  interval_cases k <;> decide

theorem digit?_digitChar (k : Nat) (h : k ≤ 9) : digit? (digitChar k) = some k := by
  interval_cases k <;> decide

theorem digitChar_ne_space (k : Nat) : ¬(' ' = digitChar k) := by
  unfold digitChar
  split <;> decide

theorem char_ofNat_toNat {c : Char} (h : c.toNat < 55296) : Char.ofNat c.toNat = c := by
  unfold Char.ofNat
  rw [dif_pos (Or.inl h)]
  unfold Char.ofNatAux
  apply Char.eq_of_val_eq
  apply UInt32.ext
  simp [UInt32.toNat, Char.toNat]

theorem digit_inv {c : Char} {x : Nat} (h : digit? c = some x) :
    x ≤ 9 ∧ digitChar x = c := by
  unfold digit? at h
  split at h
  · next hdig =>
    injection h with h
    subst h
    simp only [Char.isDigit, Bool.and_eq_true, decide_eq_true_eq] at hdig
    have h48 : 48 ≤ c.toNat := hdig.1
    have h57 : c.toNat ≤ 57 := hdig.2
    refine ⟨by omega, ?_⟩
    rw [digitChar_eq_ofNat _ (by omega)]
    have : 48 + (c.toNat - 48) = c.toNat := by omega
    rw [this]
    exact char_ofNat_toNat (by omega)
  · exact absurd h (by simp)

theorem pad2_of_parse2 {a b : Char} {n : Nat} (h : parse2 a b = some n) :
    pad2 n = [a, b] ∧ n ≤ 99 := by
  unfold parse2 at h
  rcases ha : digit? a with _ | x <;> rw [ha] at h
  · simp at h
  rcases hb : digit? b with _ | y <;> rw [hb] at h
  · simp at h
  simp only [Option.bind_eq_bind, Option.some_bind, Option.pure_def, Option.some.injEq] at h
  obtain ⟨hx9, hxa⟩ := digit_inv ha
  obtain ⟨hy9, hyb⟩ := digit_inv hb
  subst h
  unfold pad2
  have d1 : (10 * x + y) / 10 = x := by omega
  have d2 : (10 * x + y) % 10 = y := by omega
  rw [d1, d2, hxa, hyb]
  exact ⟨rfl, by omega⟩

theorem pad4_of_parse4 {a b c e : Char} {n : Nat} (h : parse4 a b c e = some n) :
    pad4 n = [a, b, c, e] ∧ n ≤ 9999 := by
  unfold parse4 at h
  rcases ha : digit? a with _ | x1 <;> rw [ha] at h
  · simp at h
  rcases hb : digit? b with _ | x2 <;> rw [hb] at h
  · simp at h
  rcases hc : digit? c with _ | x3 <;> rw [hc] at h
  · simp at h
  rcases he : digit? e with _ | x4 <;> rw [he] at h
  · simp at h
  simp only [Option.bind_eq_bind, Option.some_bind, Option.pure_def, Option.some.injEq] at h
  obtain ⟨h19, h1a⟩ := digit_inv ha
  obtain ⟨h29, h2b⟩ := digit_inv hb
  obtain ⟨h39, h3c⟩ := digit_inv hc
  obtain ⟨h49, h4e⟩ := digit_inv he
  subst h
  unfold pad4
  have d1 : (1000 * x1 + 100 * x2 + 10 * x3 + x4) / 1000 = x1 := by omega
  have d2 : (1000 * x1 + 100 * x2 + 10 * x3 + x4) / 100 % 10 = x2 := by omega
  have d3 : (1000 * x1 + 100 * x2 + 10 * x3 + x4) / 10 % 10 = x3 := by omega
  have d4 : (1000 * x1 + 100 * x2 + 10 * x3 + x4) % 10 = x4 := by omega
  rw [d1, d2, d3, d4, h1a, h2b, h3c, h4e]
  exact ⟨rfl, by omega⟩

theorem parseIsoDateTime_isoformat {s : String} {d : DateTime}
    (h : parseIsoDateTime s = some d) : isoformat d = s := by
  unfold parseIsoDateTime at h
  split at h
  · next y1 y2 y3 y4 a1 a2 b1 b2 c1 c2 e1 e2 f1 f2 heq =>
    rcases hy : parse4 y1 y2 y3 y4 with _ | y <;> rw [hy] at h
    · simp at h
    rcases hmo : parse2 a1 a2 with _ | mo <;> rw [hmo] at h
    · simp at h
    rcases hdd : parse2 b1 b2 with _ | dd <;> rw [hdd] at h
    · simp at h
    rcases hhh : parse2 c1 c2 with _ | hh <;> rw [hhh] at h
    · simp at h
    rcases hmi : parse2 e1 e2 with _ | mi <;> rw [hmi] at h
    · simp at h
    rcases hss : parse2 f1 f2 with _ | ss <;> rw [hss] at h
    · simp at h
    simp only [Option.bind_eq_bind, Option.some_bind, Option.pure_def] at h
    split at h
    · next _ =>
      simp only [Option.some.injEq] at h
      subst h
      unfold isoformat
      rw [(pad4_of_parse4 hy).1, (pad2_of_parse2 hmo).1, (pad2_of_parse2 hdd).1,
        (pad2_of_parse2 hhh).1, (pad2_of_parse2 hmi).1, (pad2_of_parse2 hss).1]
      simp only [List.cons_append, List.nil_append]
      rw [← heq]
    · simp at h
  · simp at h

theorem isoformat_length (d : DateTime) : (isoformat d).data.length = 19 := by
  simp [isoformat, pad4, pad2]

theorem splitOnChar_ne_nil (sep : Char) (l : List Char) : splitOnChar sep l ≠ [] := by
  cases l with
  | nil => simp [splitOnChar]
  | cons c rest =>
    simp only [splitOnChar]
    split
    · simp
    · split <;> simp

theorem sep_mem_of_splitOnChar {sep : Char} :
    ∀ {l t ts}, splitOnChar sep l = t :: ts → ts ≠ [] → sep ∈ l := by
  intro l
  induction l with
  | nil =>
    intro t ts h hne
    simp only [splitOnChar] at h
    injection h with h1 h2
    exact absurd h2.symm hne
  | cons c rest ih =>
    intro t ts h hne
    by_cases hc : c = sep
    · subst hc
      exact List.mem_cons_self _ _
    · simp only [splitOnChar, if_neg hc] at h
      rcases hsp : splitOnChar sep rest with _ | ⟨t', ts'⟩
      · exact absurd hsp (splitOnChar_ne_nil _ _)
      · rw [hsp] at h
        injection h with h1 h2
        subst h2
        exact List.mem_cons_of_mem _ (ih hsp hne)

theorem space_not_mem_isoformat (d : DateTime) : ¬(' ' ∈ (isoformat d).data) := by
  have hd : ∀ k, (' ' = digitChar k) ↔ False := fun k => iff_false_intro (digitChar_ne_space k)
  simp [isoformat, pad4, pad2, hd]

theorem dateParse_nonIso_ne {s : String} {d : DateTime} (h : dateParse s = .ok d)
    (hni : parseIsoDateTime s = none) : isoformat d ≠ s := by
  unfold dateParse at h
  rw [hni] at h
  rcases h2 : parseIsoDate s with _ | d2 <;> rw [h2] at h
  · rcases h3 : parseMonthDayYearTime s with _ | d3 <;> rw [h3] at h
    · simp at h
    · simp only [Except.ok.injEq] at h
      subst h
      unfold parseMonthDayYearTime at h3
      split at h3
      · next mon dd yy tt heq =>
        intro habs
        have hmem : ' ' ∈ s.data := sep_mem_of_splitOnChar heq (by simp)
        rw [← habs] at hmem
        exact space_not_mem_isoformat _ hmem
      · simp at h3
  · simp only [Except.ok.injEq] at h
    subst h
    unfold parseIsoDate at h2
    split at h2
    · next y1 y2 y3 y4 a1 a2 b1 b2 heq =>
      intro habs
      have hlen : s.data.length = 10 := by rw [heq]; rfl
      have hlen19 : (isoformat d2).data.length = 19 := isoformat_length d2
      rw [habs] at hlen19
      omega
    · simp at h2

theorem dateParse_iso_iff {s : String} {d : DateTime} (h : dateParse s = .ok d) :
    isoformat d = s ↔ parseIsoDateTime s = some d := by
  constructor
  · intro heq
    rcases hpi : parseIsoDateTime s with _ | d'
    · exact absurd heq (dateParse_nonIso_ne h hpi)
    · unfold dateParse at h
      rw [hpi] at h
      simp only [Except.ok.injEq] at h
      exact congrArg some h
  · intro hpi
    exact parseIsoDateTime_isoformat hpi

/-- C10: on success create_reminder stores and echoes the parsed due
time re-serialized to ISO format: the stored string is the isoformat of
the parse, it equals the raw argument exactly when the raw argument is
in canonical ISO datetime form, and the concrete non-canonical input
March 1 2024 9am is stored as 2024-03-01T09:00:00, differing from the
raw text. -/
theorem create_reminder_normalizes_due_time
    (arguments : List (String × Value)) (st : AssistantState) (r : ToolResult)
    (st' : AssistantState) (hok : toolCreateReminder arguments st = .ok (r, st'))
    (hst : List.lookup "status" r = some (.str "stored")) :
    (∃ raw d su,
      pyGetD arguments "due_time" .vnone = .str raw ∧
      dateParse raw = .ok d ∧
      List.lookup "reminder" r =
        some (.dict [("summary", .str su), ("due_time", .str (isoformat d))]) ∧
      st'.reminders = st.reminders ++ [⟨su, isoformat d⟩] ∧
      (isoformat d = raw ↔ parseIsoDateTime raw = some d)) ∧
    (∀ seed, toolCreateReminder
        [("summary", .str "Pay bills"), ("due_time", .str "March 1 2024 9am")] ⟨[], seed⟩ =
      .ok ([("status", .str "stored"),
            ("reminder", .dict [("summary", .str "Pay bills"),
                                ("due_time", .str "2024-03-01T09:00:00")]),
            ("total", .num 1)], ⟨[⟨"Pay bills", "2024-03-01T09:00:00"⟩], seed⟩) ∧
      "2024-03-01T09:00:00" ≠ "March 1 2024 9am") := by
  constructor
  · unfold toolCreateReminder at hok
    rcases h1 : pyStripStr (pyGetD arguments "summary" (Value.str "")) with e | su <;>
      rw [h1] at hok
    · simp at hok
    dsimp only at hok
    rcases hok2 : decide (su = "") with _ | _
    · have hsu : ¬(su = "") := of_decide_eq_false hok2
      rw [if_neg hsu] at hok
      rcases htr : pyTruthy (pyGetD arguments "due_time" Value.vnone) with _ | _
      · rw [if_pos (by rw [htr])] at hok
        injection hok with hok
        injection hok with hr hst'
        subst hr
        exact Option.noConfusion hst
      · rw [if_neg (by rw [htr]; simp)] at hok
        rcases hdp : pyDateParseValue (pyGetD arguments "due_time" Value.vnone) with exc | d <;>
          rw [hdp] at hok
        · injection hok with hok
          injection hok with hr hst'
          subst hr
          exact Option.noConfusion hst
        · injection hok with hok
          injection hok with hr hst'
          subst hr
          subst hst'
          rcases hdu : pyGetD arguments "due_time" Value.vnone with _ | raw | n | xs | kvs <;>
            rw [hdu] at hdp <;>
            simp only [pyDateParseValue] at hdp
          case str =>
            refine ⟨raw, d, su, rfl, hdp, ?_, ?_, dateParse_iso_iff hdp⟩
            · rfl
            · rfl
          all_goals cases hdp
    · have hsu : su = "" := of_decide_eq_true hok2
      rw [if_pos hsu] at hok
      injection hok with hok
      injection hok with hr hst'
      subst hr
      exact Option.noConfusion hst
  · intro seed
    exact ⟨rfl, by decide⟩

/-- Witness for the C10 theorem at the canonical-ISO scenario A input. -/
theorem create_reminder_normalizes_due_time_witness :
    (∃ raw d su,
      pyGetD payRentArgs "due_time" .vnone = .str raw ∧
      dateParse raw = .ok d ∧
      List.lookup "reminder"
          [("status", Value.str "stored"),
           ("reminder", Value.dict [("summary", Value.str "Pay rent"),
                                    ("due_time", Value.str "2024-03-01T09:00:00")]),
           ("total", Value.num 1)] =
        some (.dict [("summary", .str su), ("due_time", .str (isoformat d))]) ∧
      (⟨[⟨"Pay rent", "2024-03-01T09:00:00"⟩],
          seedCalendar "2024-03-01" "2024-03-02"⟩ : AssistantState).reminders =
        st0.reminders ++ [⟨su, isoformat d⟩] ∧
      (isoformat d = raw ↔ parseIsoDateTime raw = some d)) ∧
    (∀ seed, toolCreateReminder
        [("summary", .str "Pay bills"), ("due_time", .str "March 1 2024 9am")] ⟨[], seed⟩ =
      .ok ([("status", .str "stored"),
            ("reminder", .dict [("summary", .str "Pay bills"),
                                ("due_time", .str "2024-03-01T09:00:00")]),
            ("total", .num 1)], ⟨[⟨"Pay bills", "2024-03-01T09:00:00"⟩], seed⟩) ∧
      "2024-03-01T09:00:00" ≠ "March 1 2024 9am") :=
  create_reminder_normalizes_due_time payRentArgs st0
    [("status", Value.str "stored"),
     ("reminder", Value.dict [("summary", Value.str "Pay rent"),
                              ("due_time", Value.str "2024-03-01T09:00:00")]),
     ("total", Value.num 1)]
    ⟨[⟨"Pay rent", "2024-03-01T09:00:00"⟩], seedCalendar "2024-03-01" "2024-03-02"⟩
    rfl rfl

theorem pyStripStr_error {v : Value} {e : PyError} (h : pyStripStr v = .error e) :
    ∃ m, e = .attributeError m := by
  cases v <;> simp [pyStripStr] at h <;> exact ⟨_, h.symm⟩

theorem pyLower_error {v : Value} {e : PyError} (h : pyLower v = .error e) :
    ∃ m, e = .attributeError m := by
  cases v <;> simp [pyLower] at h <;> exact ⟨_, h.symm⟩

theorem toolGetWeatherForecast_error {fetch : String → Except String WeatherPayload}
    {arguments : List (String × Value)} {e : PyError}
    (h : toolGetWeatherForecast fetch arguments = .error e) :
    ∃ m, e = .attributeError m := by
  unfold toolGetWeatherForecast at h
  rcases h1 : pyStripStr (pyGetD arguments "location" (Value.str "")) with e1 | loc <;>
    rw [h1] at h
  · injection h with h
    exact h ▸ pyStripStr_error h1
  dsimp only at h
  rcases h2 : pyLower (if pyTruthy (pyGetD arguments "unit" Value.vnone) then
      pyGetD arguments "unit" Value.vnone else Value.str "fahrenheit") with e2 | u <;>
    rw [h2] at h
  · injection h with h
    exact h ▸ pyLower_error h2
  dsimp only at h
  split at h
  · cases h
  · split at h <;> cases h

theorem toolCreateReminder_error {arguments : List (String × Value)} {st : AssistantState}
    {e : PyError} (h : toolCreateReminder arguments st = .error e) :
    ∃ m, e = .attributeError m := by
  unfold toolCreateReminder at h
  rcases h1 : pyStripStr (pyGetD arguments "summary" (Value.str "")) with e1 | su <;>
    rw [h1] at h
  · injection h with h
    exact h ▸ pyStripStr_error h1
  dsimp only at h
  split at h
  · cases h
  · split at h
    · cases h
    · split at h <;> cases h

theorem toolSearchPublicInfo_error {fetch : String → Except String Value}
    {arguments : List (String × Value)} {e : PyError}
    (h : toolSearchPublicInfo fetch arguments = .error e) :
    ∃ m, e = .attributeError m := by
  unfold toolSearchPublicInfo at h
  rcases h1 : pyStripStr (pyGetD arguments "topic" (Value.str "")) with e1 | topic <;>
    rw [h1] at h
  · injection h with h
    exact h ▸ pyStripStr_error h1
  dsimp only at h
  split at h
  · cases h
  · split at h <;> cases h

theorem toolDraftEmailOutline_error {arguments : List (String × Value)} {e : PyError}
    (h : toolDraftEmailOutline arguments = .error e) :
    ∃ m, e = .attributeError m := by
  unfold toolDraftEmailOutline at h
  rcases h1 : pyStripStr (pyGetD arguments "recipient" (Value.str "there")) with e1 | x <;>
    rw [h1] at h
  · injection h with h
    exact h ▸ pyStripStr_error h1
  dsimp only at h
  rcases h2 : pyStripStr (pyGetD arguments "subject" (Value.str "Quick update")) with e2 | y <;>
    rw [h2] at h
  · injection h with h
    exact h ▸ pyStripStr_error h2
  dsimp only at h
  rcases h3 : pyStripStr (pyGetD arguments "outline" (Value.str "")) with e3 | z <;>
    rw [h3] at h
  · injection h with h
    exact h ▸ pyStripStr_error h3
  cases h

/-- The calendar handler never raises and never writes the state. -/
theorem toolListCalendarAgenda_ok (arguments : List (String × Value)) (st : AssistantState) :
    ∃ r, toolListCalendarAgenda arguments st = .ok (r, st) := by
  unfold toolListCalendarAgenda
  rcases htr : pyTruthy (pyGetD arguments "date" Value.vnone)
  · exact ⟨[("error", Value.str "Provide a date in YYYY-MM-DD format.")], by simp [htr]⟩
  · rcases hp : pyDateParseValue (pyGetD arguments "date" Value.vnone) with exc | parsed
    · exact ⟨[("error", Value.str ("Invalid date: " ++ exc))], by simp [htr, hp]⟩
    · exact ⟨[("date", Value.str (dateIso parsed)),
        ("events", pyGetD st.calendar_seed (dateIso parsed) (Value.list []))], by simp [htr, hp]⟩

theorem coercePairs_error : ∀ {xs : List Value} {e : PyError},
    coercePairs xs = .error e → ∃ m, e = .typeError m := by
  intro xs
  induction xs with
  | nil => intro e h; cases h
  | cons x rest ih =>
    intro e h
    unfold coercePairs at h
    split at h
    · split at h
      · cases h
      · next heq =>
        injection h with h
        exact h ▸ ih heq
    · injection h with h
      exact ⟨_, h.symm⟩

theorem coerceDict_error {v : Value} {e : PyError} (h : coerceDict v = .error e) :
    (∃ m, e = .typeError m) ∨
      e = .valueError "dictionary update sequence element #0 has length 1; 2 is required" := by
  cases v with
  | vnone =>
    left
    injection h with h
    exact ⟨_, h.symm⟩
  | num n =>
    left
    injection h with h
    exact ⟨_, h.symm⟩
  | str s =>
    simp only [coerceDict] at h
    split at h
    · cases h
    · right
      injection h with h
      exact h.symm
  | dict kvs => exact Except.noConfusion h
  | list xs =>
    left
    exact coercePairs_error h

theorem dispatchToolCall_error {pv : Providers} {fc : FunctionCall} {st : AssistantState}
    {e : PyError} (h : dispatchToolCall pv fc st = .error e) :
    e ≠ .valueError "Provide text, an image, or both." := by
  unfold dispatchToolCall at h
  split at h
  · cases h
  · rcases hc : coerceDict fc.args with e1 | args <;> rw [hc] at h
    · injection h with h
      subst h
      rcases coerceDict_error hc with ⟨m, hm⟩ | hm <;> subst hm <;> simp
    · dsimp only at h
      split at h
      · next n =>
        split at h
        · rcases hw : toolGetWeatherForecast pv.weather args with ew | rw' <;> rw [hw] at h
          · injection h with h
            subst h
            obtain ⟨m, hm⟩ := toolGetWeatherForecast_error hw
            subst hm
            simp
          · cases h
        · split at h
          · obtain ⟨r0, hr0⟩ := toolListCalendarAgenda_ok args st
            rw [hr0] at h
            cases h
          · split at h
            · rcases hw : toolCreateReminder args st with ew | rw' <;> rw [hw] at h
              · injection h with h
                subst h
                obtain ⟨m, hm⟩ := toolCreateReminder_error hw
                subst hm
                simp
              · cases h
            · split at h
              · rcases hw : toolSearchPublicInfo pv.wiki args with ew | rw' <;> rw [hw] at h
                · injection h with h
                  subst h
                  obtain ⟨m, hm⟩ := toolSearchPublicInfo_error hw
                  subst hm
                  simp
                · cases h
              · rcases hw : toolDraftEmailOutline args with ew | rw' <;> rw [hw] at h
                · injection h with h
                  subst h
                  obtain ⟨m, hm⟩ := toolDraftEmailOutline_error hw
                  subst hm
                  simp
                · cases h
      · cases h

theorem dispatchSequence_error {pv : Providers} :
    ∀ {calls : List FunctionCall} {st : AssistantState} {e : PyError},
    dispatchSequence pv calls st = .error e →
    e ≠ .valueError "Provide text, an image, or both." := by
  intro calls
  induction calls with
  | nil => intro st e h; cases h
  | cons fc rest ih =>
    intro st e h
    unfold dispatchSequence at h
    rcases hd : dispatchToolCall pv fc st with ed | p <;> rw [hd] at h
    · injection h with h
      exact h ▸ dispatchToolCall_error hd
    · dsimp only at h
      rcases hs : dispatchSequence pv rest p.2 with es | q <;> rw [hs] at h
      · injection h with h
        exact h ▸ ih hs
      · cases h

theorem generateUntilComplete_error {pv : Providers} {backend : Nat → Message} :
    ∀ {fuel round : Nat} {history : List Message} {st : AssistantState} {e : PyError},
    generateUntilComplete pv backend round fuel history st = .error e →
    e ≠ .valueError "Provide text, an image, or both." := by
  intro fuel
  induction fuel with
  | zero => intro round history st e h; cases h
  | succ n ih =>
    intro round history st e h
    unfold generateUntilComplete at h
    dsimp only at h
    split at h
    · cases h
    · rcases hd : dispatchSequence pv (extractFunctionCalls (backend round)) st with
        ed | p <;> rw [hd] at h
      · injection h with h
        exact h ▸ dispatchSequence_error hd
      · exact ih h

theorem generateUntilComplete_history_prefix {pv : Providers} {backend : Nat → Message} :
    ∀ {fuel round : Nat} {history : List Message} {st : AssistantState}
      {m : Message} {history' : List Message} {st' : AssistantState},
    generateUntilComplete pv backend round fuel history st = .ok (some (m, history', st')) →
    history <+: history' := by
  intro fuel
  induction fuel with
  | zero =>
    intro round history st m history' st' h
    simp [generateUntilComplete] at h
  | succ n ih =>
    intro round history st m history' st' h
    unfold generateUntilComplete at h
    dsimp only at h
    split at h
    · simp only [Except.ok.injEq, Option.some.injEq, Prod.mk.injEq] at h
      obtain ⟨h1, h2, h3⟩ := h
      exact h2 ▸ ⟨[backend round], rfl⟩
    · rcases hd : dispatchSequence pv (extractFunctionCalls (backend round)) st with
        ed | p <;> rw [hd] at h
      · cases h
      · refine List.IsPrefix.trans ⟨[backend round] ++ p.1, ?_⟩ (ih h)
        simp

/-- Test fixture: the tool message the dispatcher produces for the
unregistered stub call. -/
def bogusToolMsg : Message :=
  toolResultMessage ⟨Value.str "bogus_tool", Value.dict []⟩
    [("error", Value.str "Tool 'bogus_tool' is not available.")]

/-- C7 counterexample: with an empty prompt and an empty-byte attachment
(both absent or empty in the claim's sense) chat proceeds and answers
instead of failing: only a None attachment triggers the precondition. -/
theorem chat_empty_prompt_empty_bytes_proceeds :
    chat noProviders stubOnce 3 "" (some []) "image/png" ⟨[], st0⟩ =
      .ok (some ("hi", ⟨[buildUserMessage "" (some []) "image/png",
        bogusCallMsg, bogusToolMsg, doneMsg], st0⟩)) := rfl

/-- C7 (amended): chat fails with the InvalidInput ValueError exactly
when the prompt is empty and the image attachment is None (an attachment
of empty bytes counts as present, so the call proceeds); on every
successful call the transcript extends the previous history with the
built user-role message followed by the loop's messages, and the error
case returns before any transcript is produced. -/
theorem chat_invalid_input_iff (pv : Providers) (backend : Nat → Message) (fuel : Nat)
    (prompt : String) (imageBytes : Option (List Nat)) (mimeType : String) (s : Session) :
    (chat pv backend fuel prompt imageBytes mimeType s =
        .error (.valueError "Provide text, an image, or both.") ↔
      prompt = "" ∧ imageBytes = none) ∧
    (∀ t s', chat pv backend fuel prompt imageBytes mimeType s = .ok (some (t, s')) →
      s.history ++ [buildUserMessage prompt imageBytes mimeType] <+: s'.history) ∧
    (buildUserMessage prompt imageBytes mimeType).role = "user" := by
  refine ⟨⟨?_, ?_⟩, ?_, rfl⟩
  · intro h
    by_cases hc : prompt = "" ∧ imageBytes = none
    · exact hc
    · rw [chat, if_neg hc] at h
      rcases hl : generateUntilComplete pv backend 0 fuel
          (s.history ++ [buildUserMessage prompt imageBytes mimeType]) s.state with
        el | o <;> rw [hl] at h
      · injection h with h
        exact absurd h (generateUntilComplete_error hl)
      · rcases o with _ | ⟨m, hist2, st2⟩ <;> cases h
  · rintro ⟨h1, h2⟩
    subst h1
    subst h2
    rw [chat, if_pos ⟨rfl, rfl⟩]
  · intro t s' h
    unfold chat at h
    split at h
    · cases h
    · rcases hl : generateUntilComplete pv backend 0 fuel
          (s.history ++ [buildUserMessage prompt imageBytes mimeType]) s.state with
        el | o <;> rw [hl] at h
      · cases h
      · rcases o with _ | ⟨m, hist2, st2⟩
        · cases h
        · simp only [Except.ok.injEq, Option.some.injEq, Prod.mk.injEq] at h
          obtain ⟨h1, h2⟩ := h
          rw [← h2]
          exact generateUntilComplete_history_prefix hl

/-- Witness for the C7 theorem at the empty-input point, where the
InvalidInput condition fires. -/
theorem chat_invalid_input_iff_witness :
    (chat noProviders stubOnce 3 "" none "image/png" ⟨[], st0⟩ =
        .error (.valueError "Provide text, an image, or both.") ↔
      ("" : String) = "" ∧ (none : Option (List Nat)) = none) ∧
    (∀ t s', chat noProviders stubOnce 3 "" none "image/png" ⟨[], st0⟩ = .ok (some (t, s')) →
      (⟨[], st0⟩ : Session).history ++ [buildUserMessage "" none "image/png"] <+: s'.history) ∧
    (buildUserMessage "" none "image/png").role = "user" :=
  chat_invalid_input_iff noProviders stubOnce 3 "" none "image/png" ⟨[], st0⟩

theorem dispatchSequence_ok_of {pv : Providers} :
    ∀ {calls : List FunctionCall},
    (∀ fc ∈ calls, ∀ s, ∃ r s', dispatchToolCall pv fc s = .ok (r, s')) →
    ∀ st, ∃ msgs st', dispatchSequence pv calls st = .ok (msgs, st') := by
  intro calls
  induction calls with
  | nil => exact fun _ st => ⟨[], st, rfl⟩
  | cons fc rest ih =>
    intro h st
    obtain ⟨r, s', hr⟩ := h fc (List.mem_cons_self _ _) st
    obtain ⟨msgs, st', hrest⟩ := ih (fun q hq => h q (List.mem_cons_of_mem _ hq)) s'
    refine ⟨toolResultMessage fc r :: msgs, st', ?_⟩
    unfold dispatchSequence
    rw [hr]
    dsimp only
    rw [hrest]

theorem loop_some_gives_quiet_round {pv : Providers} {backend : Nat → Message} :
    ∀ {fuel round : Nat} {history : List Message} {st : AssistantState}
      {res : Message × List Message × AssistantState},
    generateUntilComplete pv backend round fuel history st = .ok (some res) →
    ∃ n, extractFunctionCalls (backend n) = [] := by
  intro fuel
  induction fuel with
  | zero =>
    intro round history st res h
    simp [generateUntilComplete] at h
  | succ k ih =>
    intro round history st res h
    unfold generateUntilComplete at h
    dsimp only at h
    split at h
    · next hemp => exact ⟨round, List.isEmpty_iff.mp hemp⟩
    · rcases hd : dispatchSequence pv (extractFunctionCalls (backend round)) st with
        ed | p <;> rw [hd] at h
      · cases h
      · exact ih h

theorem quiet_round_gives_loop_some {pv : Providers} {backend : Nat → Message}
    (hdisp : ∀ n fc, fc ∈ extractFunctionCalls (backend n) → ∀ s,
      ∃ r s', dispatchToolCall pv fc s = .ok (r, s')) :
    ∀ (k round : Nat) (history : List Message) (st : AssistantState),
    extractFunctionCalls (backend (round + k)) = [] →
    ∃ fuel res, generateUntilComplete pv backend round fuel history st = .ok (some res) := by
  intro k
  induction k with
  | zero =>
    intro round history st hq
    refine ⟨1, (backend round, history ++ [backend round], st), ?_⟩
    unfold generateUntilComplete
    dsimp only
    rw [if_pos (by simpa [List.isEmpty_iff] using hq)]
  | succ k ih =>
    intro round history st hq
    by_cases hr : extractFunctionCalls (backend round) = []
    · refine ⟨1, (backend round, history ++ [backend round], st), ?_⟩
      unfold generateUntilComplete
      dsimp only
      rw [if_pos (by simpa [List.isEmpty_iff] using hr)]
    · obtain ⟨msgs, st', hseq⟩ := dispatchSequence_ok_of (fun fc hfc s => hdisp round fc hfc s) st
      have hq' : extractFunctionCalls (backend (round + 1 + k)) = [] := by
        have : round + 1 + k = round + (k + 1) := by omega
        rw [this]
        exact hq
      obtain ⟨fuel, res, hrun⟩ := ih (round + 1) ((history ++ [backend round]) ++ msgs) st' hq'
      refine ⟨fuel + 1, res, ?_⟩
      unfold generateUntilComplete
      dsimp only
      rw [if_neg (by simpa [List.isEmpty_iff] using hr), hseq]
      exact hrun

theorem stubAlways_never_returns :
    ∀ (fuel round : Nat) (history : List Message) (st : AssistantState),
    generateUntilComplete noProviders stubAlways round fuel history st = .ok none := by
  intro fuel
  induction fuel with
  | zero => intro round history st; rfl
  | succ k ih =>
    intro round history st
    unfold generateUntilComplete
    dsimp only
    rw [if_neg (by simp [stubAlways, bogusCallMsg, extractFunctionCalls])]
    have hseq : dispatchSequence noProviders
        (extractFunctionCalls (stubAlways round)) st = .ok ([bogusToolMsg], st) := rfl
    rw [hseq]
    exact ih (round + 1) _ st

/-- C2 counterexample: the loop has no round cap: with the stub backend
that requests a tool call on every round, 64 rounds of modelled fuel
elapse and the loop has still not returned (the ok none outcome marks
exhaustion of the model's fuel; the while True in the source has no
bound of its own), so no configurable maximum round count stops it. -/
theorem loop_no_round_cap :
    generateUntilComplete noProviders stubAlways 0 64 [] st0 = .ok none :=
  stubAlways_never_returns 64 0 [] st0

/-- C2 (amended): when every requested call dispatches without raising,
the loop returns a final message iff the backend eventually answers some
round with zero toolCall parts; and the implementation has no maximum
round count: the always-tool-call stub leaves the loop unreturned for
every modelled fuel bound. -/
theorem loop_terminates_iff (pv : Providers) (backend : Nat → Message)
    (history : List Message) (st : AssistantState)
    (hdisp : ∀ n fc, fc ∈ extractFunctionCalls (backend n) → ∀ s,
      ∃ r s', dispatchToolCall pv fc s = .ok (r, s')) :
    ((∃ fuel res, generateUntilComplete pv backend 0 fuel history st = .ok (some res)) ↔
      ∃ n, extractFunctionCalls (backend n) = []) ∧
    (∀ fuel, generateUntilComplete noProviders stubAlways 0 fuel [] st0 = .ok none) := by
  constructor
  · constructor
    · rintro ⟨fuel, res, h⟩
      exact loop_some_gives_quiet_round h
    · rintro ⟨n, hn⟩
      exact quiet_round_gives_loop_some hdisp n 0 history st (by simpa using hn)
  · intro fuel
    exact stubAlways_never_returns fuel 0 [] st0

/-- Witness for the C2 theorem with the one-call stub backend, whose
single requested call dispatches to the unavailable-tool result. -/
theorem loop_terminates_iff_witness :
    ((∃ fuel res, generateUntilComplete noProviders stubOnce 0 fuel [] st0 = .ok (some res)) ↔
      ∃ n, extractFunctionCalls (stubOnce n) = []) ∧
    (∀ fuel, generateUntilComplete noProviders stubAlways 0 fuel [] st0 = .ok none) :=
  loop_terminates_iff noProviders stubOnce [] st0 (by
    intro n fc hfc s
    match n with
    | 0 =>
      simp [stubOnce, bogusCallMsg, extractFunctionCalls] at hfc
      subst hfc
      exact ⟨_, _, rfl⟩
    | k + 1 =>
      simp [stubOnce, doneMsg, extractFunctionCalls] at hfc)

/-- The round structure the loop appends after the user message: each
step round contributes the backend's model message followed by the tool
messages its dispatches produced, and the final round contributes the
closing model message with no tool calls. -/
inductive LoopTrace (pv : Providers) (backend : Nat → Message) :
    Nat → AssistantState → List Message → AssistantState → Message → Prop where
  | done (round : Nat) (st : AssistantState)
      (hq : extractFunctionCalls (backend round) = []) :
      LoopTrace pv backend round st [backend round] st (backend round)
  | step (round : Nat) (st : AssistantState) (toolMsgs : List Message)
      (st₁ : AssistantState) (rest : List Message) (st₂ : AssistantState) (m : Message)
      (hne : extractFunctionCalls (backend round) ≠ [])
      (hseq : dispatchSequence pv (extractFunctionCalls (backend round)) st =
        .ok (toolMsgs, st₁))
      (htail : LoopTrace pv backend (round + 1) st₁ rest st₂ m) :
      LoopTrace pv backend round st (backend round :: (toolMsgs ++ rest)) st₂ m

theorem generateUntilComplete_trace {pv : Providers} {backend : Nat → Message} :
    ∀ {fuel round : Nat} {history : List Message} {st : AssistantState}
      {m : Message} {history' : List Message} {st' : AssistantState},
    generateUntilComplete pv backend round fuel history st = .ok (some (m, history', st')) →
    ∃ body, history' = history ++ body ∧ LoopTrace pv backend round st body st' m := by
  intro fuel
  induction fuel with
  | zero =>
    intro round history st m history' st' h
    simp [generateUntilComplete] at h
  | succ k ih =>
    intro round history st m history' st' h
    unfold generateUntilComplete at h
    dsimp only at h
    split at h
    · next hemp =>
      simp only [Except.ok.injEq, Option.some.injEq, Prod.mk.injEq] at h
      obtain ⟨h1, h2, h3⟩ := h
      subst h1
      subst h3
      exact ⟨[backend round], h2.symm, .done round st (List.isEmpty_iff.mp hemp)⟩
    · next hemp =>
      rcases hd : dispatchSequence pv (extractFunctionCalls (backend round)) st with
        ed | p <;> rw [hd] at h
      · cases h
      · obtain ⟨body, hb, htr⟩ := ih h
        refine ⟨backend round :: (p.1 ++ body), by simpa using hb, ?_⟩
        exact .step round st p.1 p.2 body st' m
          (by simpa [List.isEmpty_iff] using hemp) (by rw [hd]) htr

theorem dispatchSequence_shape {pv : Providers} :
    ∀ {calls : List FunctionCall} {st : AssistantState} {msgs : List Message}
      {st' : AssistantState},
    dispatchSequence pv calls st = .ok (msgs, st') →
    List.Forall₂ (fun fc tm => tm.role = "tool" ∧ ∃ resp, tm = toolResultMessage fc resp)
      calls msgs := by
  intro calls
  induction calls with
  | nil =>
    intro st msgs st' h
    injection h with h
    injection h with h1 h2
    subst h1
    exact List.Forall₂.nil
  | cons fc rest ih =>
    intro st msgs st' h
    unfold dispatchSequence at h
    rcases hd : dispatchToolCall pv fc st with ed | p <;> rw [hd] at h
    · cases h
    · dsimp only at h
      rcases hs : dispatchSequence pv rest p.2 with es | q <;> rw [hs] at h
      · cases h
      · dsimp only at h
        injection h with h
        injection h with h1 h2
        subst h1
        exact List.Forall₂.cons ⟨rfl, p.1, rfl⟩ (ih hs)

theorem loopTrace_last {pv : Providers} {backend : Nat → Message} :
    ∀ {round : Nat} {st : AssistantState} {body : List Message}
      {st' : AssistantState} {m : Message},
    LoopTrace pv backend round st body st' m →
    body ≠ [] ∧ body.getLast? = some m ∧ extractFunctionCalls m = [] ∧ ∃ n, m = backend n := by
  intro round st body st' m h
  induction h with
  | done round st hq => exact ⟨by simp, rfl, hq, round, rfl⟩
  | step round st toolMsgs st₁ rest st₂ m hne hseq htail ih =>
    obtain ⟨hnil, hlast, hq, hn⟩ := ih
    refine ⟨by simp, ?_, hq, hn⟩
    rw [show backend round :: (toolMsgs ++ rest) = (backend round :: toolMsgs) ++ rest by simp]
    rw [List.getLast?_append_of_ne_nil (backend round :: toolMsgs) hnil]
    exact hlast

/-- C3: whenever chat returns, the transcript is the old history plus
the built user message plus a loop trace: per completed round exactly
one model message followed by one tool-role result message per requested
call in the backend's order (the Forall₂ shape of dispatchSequence), and
it ends with a model-role message that carries no toolCall parts. -/
theorem chat_transcript_shape (pv : Providers) (backend : Nat → Message) (fuel : Nat)
    (prompt : String) (imageBytes : Option (List Nat)) (mimeType : String)
    (s : Session) (t : String) (s' : Session)
    (hrun : chat pv backend fuel prompt imageBytes mimeType s = .ok (some (t, s')))
    (hmodel : ∀ n, (backend n).role = "model") :
    ∃ m body,
      s'.history = s.history ++ buildUserMessage prompt imageBytes mimeType :: body ∧
      LoopTrace pv backend 0 s.state body s'.state m ∧
      s'.history.getLast? = some m ∧
      m.role = "model" ∧
      extractFunctionCalls m = [] ∧
      (∀ calls st₁ msgs st₂, dispatchSequence pv calls st₁ = .ok (msgs, st₂) →
        List.Forall₂ (fun fc tm => tm.role = "tool" ∧ ∃ resp, tm = toolResultMessage fc resp)
          calls msgs) := by
  unfold chat at hrun
  split at hrun
  · cases hrun
  · rcases hl : generateUntilComplete pv backend 0 fuel
        (s.history ++ [buildUserMessage prompt imageBytes mimeType]) s.state with
      el | o <;> rw [hl] at hrun
    · cases hrun
    · rcases o with _ | ⟨m, hist2, st2⟩
      · cases hrun
      · simp only [Except.ok.injEq, Option.some.injEq, Prod.mk.injEq] at hrun
        obtain ⟨ht, hs'⟩ := hrun
        obtain ⟨body, hb, htr⟩ := generateUntilComplete_trace hl
        obtain ⟨hnil, hlast, hq, n, hmn⟩ := loopTrace_last htr
        refine ⟨m, body, ?_, ?_, ?_, ?_, hq, fun calls st₁ msgs st₂ h => dispatchSequence_shape h⟩
        · rw [← hs']
          simpa using hb
        · rw [← hs']
          exact htr
        · rw [← hs', hb]
          rw [List.getLast?_append_of_ne_nil _ hnil]
          exact hlast
        · rw [hmn]
          exact hmodel n

/-- Witness for the C3 theorem on a concrete one-tool-round dialogue. -/
theorem chat_transcript_shape_witness :
    ∃ m body,
      (⟨[buildUserMessage "hello" none "image/png", bogusCallMsg, bogusToolMsg, doneMsg],
          st0⟩ : Session).history =
        (⟨[], st0⟩ : Session).history ++ buildUserMessage "hello" none "image/png" :: body ∧
      LoopTrace noProviders stubOnce 0 (⟨[], st0⟩ : Session).state body
        (⟨[buildUserMessage "hello" none "image/png", bogusCallMsg, bogusToolMsg, doneMsg],
          st0⟩ : Session).state m ∧
      (⟨[buildUserMessage "hello" none "image/png", bogusCallMsg, bogusToolMsg, doneMsg],
          st0⟩ : Session).history.getLast? = some m ∧
      m.role = "model" ∧
      extractFunctionCalls m = [] ∧
      (∀ calls st₁ msgs st₂, dispatchSequence noProviders calls st₁ = .ok (msgs, st₂) →
        List.Forall₂ (fun fc tm => tm.role = "tool" ∧ ∃ resp, tm = toolResultMessage fc resp)
          calls msgs) :=
  chat_transcript_shape noProviders stubOnce 3 "hello" none "image/png" ⟨[], st0⟩ "hi"
    ⟨[buildUserMessage "hello" none "image/png", bogusCallMsg, bogusToolMsg, doneMsg], st0⟩
    rfl (fun n => by cases n <;> rfl)

end GeminiAssistant
